import Mathlib

/-
Verification of the user CRUD service in this repository (main.py, database.py).

The embedding models, from the sources:
  - the persisted store as a list of User records together with the next
    auto-assigned primary key (database.py: SQLite table behind the engine);
  - the unit-of-work produced by SessionLocal (database.py, sessionmaker with
    autocommit=False, autoflush=False) as a staged copy of the store that is
    published to the persisted store only by an explicit commit;
  - the get_db dependency of main.py as a bracket that acquires a session
    before the handler body runs and closes it on every exit path (the
    try/yield/finally structure), recorded as acquire/release events;
  - the four route handlers of main.py, including the 404 translation of an
    absent record and the framework default response statuses.

The crud module (crud.py) and the schemas/models modules are imported by
main.py but are not part of the repository sources; the four entity
operations are therefore modelled from the spec, as marked on each one.
-/

set_option autoImplicit false

/-- A User record: id (integer primary key, auto-assigned), name, email, age. -/
structure User where
  id : Nat
  name : String
  email : String
  age : Int
deriving DecidableEq

/-- The persisted store: the rows of the users table, in insertion order,
together with the next primary key value the store will assign.  SQLite
assigns 1 to the first inserted row. -/
structure Store where
  users : List User
  nextId : Nat
deriving DecidableEq

/-- A store in a fresh deployment: no rows, first assigned id will be 1. -/
def emptyStore : Store := ⟨[], 1⟩

/-- A concrete one-row store used to evaluate the theorems on the present
case: the row was assigned id 1, the next id to assign is 2. -/
def storeBob : Store := ⟨[⟨1, "Bob", "b@x.com", 20⟩], 2⟩

/-- Store well-formedness: the next auto-assigned id is at least 1 and is
strictly larger than the id of every existing row. -/
def Store.wf (w : Store) : Prop :=
  1 ≤ w.nextId ∧ ∀ u ∈ w.users, u.id < w.nextId

/-- A unit-of-work: its staged (pending, not yet committed) view of the store. -/
structure DbSession where
  pending : Store
deriving DecidableEq

/-- Embedding of SessionLocal (database.py): the session factory produces a
fresh unit-of-work whose staged view starts at the current persisted store. -/
def SessionLocal (w : Store) : DbSession := ⟨w⟩

/-- Staging an insert on a session view: append the new row with the next
auto-assigned id and advance the id counter. -/
def storeStageAdd (w : Store) (n e : String) (a : Int) : Store :=
  ⟨w.users ++ [⟨w.nextId, n, e, a⟩], w.nextId + 1⟩

/-- Overwriting the three mutable fields of a row when its id matches (the
plain field assignments of the update operation), keeping the id. -/
def setFieldsRow (i : Nat) (n e : String) (a : Int) (u : User) : User :=
  if u.id = i then ⟨u.id, n, e, a⟩ else u

/-- Staging a field mutation on a session view: overwrite name, email and age
of the row whose id matches, keeping the id. -/
def storeStageSet (w : Store) (i : Nat) (n e : String) (a : Int) : Store :=
  ⟨w.users.map (setFieldsRow i n e a), w.nextId⟩

/-- Staging a delete on a session view: drop the row whose id matches. -/
def storeStageDelete (w : Store) (i : Nat) : Store :=
  ⟨w.users.filter (fun u => u.id != i), w.nextId⟩

/-- Query by primary key: the first row whose id matches, if any. -/
def storeFind (w : Store) (i : Nat) : Option User :=
  w.users.find? (fun u => u.id == i)

/-- The operations a unit-of-work supports: staging an insert, a mutation or a
delete, and committing the staged changes to the persisted store. -/
inductive SOp
  | stageAdd (n e : String) (a : Int)
  | stageSet (i : Nat) (n e : String) (a : Int)
  | stageDelete (i : Nat)
  | commit
deriving DecidableEq

/-- One session operation acting on the pair (persisted store, session).
Staging operations touch only the session view; commit publishes the staged
view to the persisted store (sessionmaker is configured with
autocommit=False and autoflush=False in database.py, so nothing reaches the
persisted store before an explicit commit). -/
def stepOp : Store × DbSession → SOp → Store × DbSession
  | (w, s), SOp.stageAdd n e a => (w, ⟨storeStageAdd s.pending n e a⟩)
  | (w, s), SOp.stageSet i n e a => (w, ⟨storeStageSet s.pending i n e a⟩)
  | (w, s), SOp.stageDelete i => (w, ⟨storeStageDelete s.pending i⟩)
  | (_, s), SOp.commit => (s.pending, s)

/-- Run a sequence of session operations. -/
def runOps (p : Store × DbSession) (ops : List SOp) : Store × DbSession :=
  ops.foldl stepOp p

/-- Modelled from the spec: crud.create_user of the crud module imported by
main.py (the module is not among the repository sources).  It stages a new
User record with the given fields on the unit-of-work, commits, and returns
the resulting record including its newly assigned identifier. -/
def create_user (w : Store) (n e : String) (a : Int) : User × Store × List SOp :=
  (⟨w.nextId, n, e, a⟩,
   (runOps (w, SessionLocal w) [SOp.stageAdd n e a, SOp.commit]).1,
   [SOp.stageAdd n e a, SOp.commit])

/-- Modelled from the spec: crud.get_user_by_id of the crud module imported by
main.py (not among the repository sources).  Pure read: returns the User
record whose identifier equals the given id, or an explicit absence result. -/
def get_user_by_id (w : Store) (i : Nat) : Option User :=
  storeFind w i

/-- Modelled from the spec: crud.update_user of the crud module imported by
main.py (not among the repository sources).  Looks up the record by id; if
absent, returns the absence result as a normal value and performs no session
operation.  If present, overwrites all three mutable fields, commits, and
returns the updated record. -/
def update_user (w : Store) (i : Nat) (n e : String) (a : Int) :
    Option User × Store × List SOp :=
  match storeFind w i with
  | none => (none, w, [])
  | some u =>
      (some ⟨u.id, n, e, a⟩,
       (runOps (w, SessionLocal w) [SOp.stageSet i n e a, SOp.commit]).1,
       [SOp.stageSet i n e a, SOp.commit])

/-- Modelled from the spec: crud.delete_user of the crud module imported by
main.py (not among the repository sources).  Looks up the record by id; if
absent, returns the absence result as a normal value and performs no session
operation.  If present, removes it, commits, and returns the record as it
existed immediately before deletion. -/
def delete_user (w : Store) (i : Nat) : Option User × Store × List SOp :=
  match storeFind w i with
  | none => (none, w, [])
  | some u =>
      (some u,
       (runOps (w, SessionLocal w) [SOp.stageDelete i, SOp.commit]).1,
       [SOp.stageDelete i, SOp.commit])

/-- The fixed detail message of the 404 error raised in main.py. -/
def userNotFound : String := "User not found"

/-- The body of an HTTP response of this service: either a serialized User
record (the UserOut response model) or an error detail object. -/
inductive ResponseBody
  | user (u : User)
  | detail (msg : String)
deriving DecidableEq

/-- An HTTP response: status code and body. -/
structure Response where
  status : Nat
  body : ResponseBody
deriving DecidableEq

/-- Embedding of the POST /users/ route create_user of main.py: calls
crud.create_user and returns the created record.  The route decorator sets no
explicit status code, so the framework default 200 applies. -/
def create_user_route (n e : String) (a : Int) (w : Store) : Response × Store :=
  (⟨200, ResponseBody.user (create_user w n e a).1⟩, (create_user w n e a).2.1)

/-- Embedding of the GET /users/{user_id} route read_user of main.py: calls
crud.get_user_by_id; on absence raises HTTPException(404, "User not found"),
which the framework renders as a 404 response with that detail body. -/
def read_user (i : Nat) (w : Store) : Response × Store :=
  match get_user_by_id w i with
  | some u => (⟨200, ResponseBody.user u⟩, w)
  | none => (⟨404, ResponseBody.detail userNotFound⟩, w)

/-- Embedding of the PUT /users/{user_id} route update_user_route of main.py:
calls crud.update_user; on absence raises HTTPException(404, "User not found"). -/
def update_user_route (i : Nat) (n e : String) (a : Int) (w : Store) :
    Response × Store :=
  match update_user w i n e a with
  | (some u, w2, _) => (⟨200, ResponseBody.user u⟩, w2)
  | (none, w2, _) => (⟨404, ResponseBody.detail userNotFound⟩, w2)

/-- Embedding of the DELETE /users/{user_id} route delete_user_route of
main.py: calls crud.delete_user; on absence raises
HTTPException(404, "User not found"). -/
def delete_user_route (i : Nat) (w : Store) : Response × Store :=
  match delete_user w i with
  | (some u, w2, _) => (⟨200, ResponseBody.user u⟩, w2)
  | (none, w2, _) => (⟨404, ResponseBody.detail userNotFound⟩, w2)

/-- Session lifecycle events of the get_db dependency of main.py. -/
inductive SessionEvent
  | acquireEv
  | releaseEv
deriving DecidableEq

/-- An inbound request to one of the four routes. -/
inductive Request
  | post (n e : String) (a : Int)
  | get (i : Nat)
  | put (i : Nat) (n e : String) (a : Int)
  | del (i : Nat)
deriving DecidableEq

/-- How a handler body ends: a normal response (success or the 404
short-circuit raised as HTTPException) or an unexpected failure that escapes
the body. -/
inductive Outcome
  | ok (r : Response)
  | fault
deriving DecidableEq

/-- Dispatch of a request to the route handler bodies of main.py. -/
def routeBody : Request → Store → Response × Store
  | Request.post n e a, w => create_user_route n e a w
  | Request.get i, w => read_user i w
  | Request.put i n e a, w => update_user_route i n e a w
  | Request.del i, w => delete_user_route i w

/-- Embedding of the get_db dependency of main.py: db = SessionLocal() before
the body runs (acquire), then the body, then db.close() in the finally block
(release), on every exit path of the body, including an unexpected failure. -/
def get_db (body : Store → Outcome × Store) (w : Store) :
    Outcome × Store × List SessionEvent :=
  ((body w).1, (body w).2, [SessionEvent.acquireEv, SessionEvent.releaseEv])

/-- One request handled end to end: get_db wraps the route body; when the body
fails unexpectedly (faulty) the exception escapes after the acquire, the
store is left as it was, and the finally block still closes the session. -/
def handleRequest (req : Request) (faulty : Bool) (w : Store) :
    Outcome × Store × List SessionEvent :=
  get_db
    (fun w0 =>
      if faulty then (Outcome.fault, w0)
      else (Outcome.ok (routeBody req w0).1, (routeBody req w0).2))
    w

/-- A sequence of requests handled one after the other, accumulating the
session lifecycle events of every request. -/
def runRequests : Store → List (Request × Bool) → Store × List SessionEvent
  | w, [] => (w, [])
  | w, rf :: rest =>
      ((runRequests (handleRequest rf.1 rf.2 w).2.1 rest).1,
       (handleRequest rf.1 rf.2 w).2.2 ++
         (runRequests (handleRequest rf.1 rf.2 w).2.1 rest).2)

/-- Number of acquire events in a trace. -/
def countAcquire : List SessionEvent → Nat
  | [] => 0
  | SessionEvent.acquireEv :: rest => countAcquire rest + 1
  | SessionEvent.releaseEv :: rest => countAcquire rest

/-- Number of release events in a trace. -/
def countRelease : List SessionEvent → Nat
  | [] => 0
  | SessionEvent.releaseEv :: rest => countRelease rest + 1
  | SessionEvent.acquireEv :: rest => countRelease rest

/-- The model of the database schema state for the startup claim: whether the
users table has been created. -/
structure Database where
  tablesCreated : Bool
deriving DecidableEq

/-- Embedding of create_tables (database.py): Base.metadata.create_all creates
all tables defined on the ORM base. -/
def create_tables (_d : Database) : Database :=
  ⟨true⟩

/-- Embedding of the on_startup handler body written in main.py: it calls
create_tables. -/
def on_startup (d : Database) : Database :=
  create_tables d

/-- Embedding of the startup registration state of main.py: the whole
@app.on_event("startup") block, including the decorator, is commented out
(main.py lines 22 to 28), so the application registers no startup handler. -/
def startup_handlers : List (Database → Database) := []

/-- Run every registered startup handler before the first request. -/
def runStartup (d : Database) : Database :=
  startup_handlers.foldl (fun d f => f d) d

/- ------------------------------------------------------------------ -/
/- Helper lemmas -/
/- ------------------------------------------------------------------ -/

theorem find_append_left_none {α : Type} (p : α → Bool) (l₁ l₂ : List α)
    (h : ∀ x ∈ l₁, p x = false) :
    List.find? p (l₁ ++ l₂) = List.find? p l₂ := by
  induction l₁ with
  | nil => rfl
  | cons x xs ih =>
      rw [List.cons_append, List.find?_cons_of_neg _ (by simp [h x (by simp)])]
      exact ih (fun y hy => h y (by simp [hy]))

theorem setFieldsRow_idem (i : Nat) (n e : String) (a : Int) (u : User) :
    setFieldsRow i n e a (setFieldsRow i n e a u) = setFieldsRow i n e a u := by
  unfold setFieldsRow
  by_cases hx : u.id = i <;> simp [hx]

theorem map_set_idem (i : Nat) (n e : String) (a : Int) (l : List User) :
    (l.map (setFieldsRow i n e a)).map (setFieldsRow i n e a) =
      l.map (setFieldsRow i n e a) := by
  induction l with
  | nil => rfl
  | cons x xs ih => simp only [List.map_cons, ih, setFieldsRow_idem]

theorem find_map_set (i : Nat) (n e : String) (a : Int) :
    ∀ (l : List User) (u : User),
      l.find? (fun x => x.id == i) = some u →
      (l.map (setFieldsRow i n e a)).find? (fun x => x.id == i) =
        some ⟨i, n, e, a⟩ := by
  intro l
  induction l with
  | nil => intro u h; cases h
  | cons x xs ih =>
      intro u h
      by_cases hx : x.id = i
      · rw [List.map_cons, setFieldsRow, if_pos hx,
          List.find?_cons_of_pos _ (by simp [hx]), hx]
      · rw [List.map_cons, setFieldsRow, if_neg hx,
          List.find?_cons_of_neg _ (by simp [hx])]
        rw [List.find?_cons_of_neg _ (by simp [hx])] at h
        exact ih u h

theorem find_filter_ne (i : Nat) (l : List User) :
    (l.filter (fun u => u.id != i)).find? (fun u => u.id == i) = none := by
  induction l with
  | nil => rfl
  | cons x xs ih =>
      by_cases hx : x.id = i
      · rw [List.filter_cons_of_neg (by simp [hx])]
        exact ih
      · rw [List.filter_cons_of_pos (by simp [hx]),
          List.find?_cons_of_neg _ (by simp [hx])]
        exact ih

theorem runOps_fst_no_commit :
    ∀ (ops : List SOp) (w : Store) (s : DbSession),
      (∀ op ∈ ops, op ≠ SOp.commit) → (runOps (w, s) ops).1 = w := by
  intro ops
  induction ops with
  | nil => intro w s _; rfl
  | cons op rest ih =>
      intro w s h
      have hstep : runOps (w, s) (op :: rest) = runOps (stepOp (w, s) op) rest := rfl
      rw [hstep]
      cases op with
      | commit => exact absurd rfl (h SOp.commit (List.mem_cons_self _ _))
      | stageAdd n e a =>
          exact ih w ⟨storeStageAdd s.pending n e a⟩
            (fun x hx => h x (List.mem_cons_of_mem _ hx))
      | stageSet i n e a =>
          exact ih w ⟨storeStageSet s.pending i n e a⟩
            (fun x hx => h x (List.mem_cons_of_mem _ hx))
      | stageDelete i =>
          exact ih w ⟨storeStageDelete s.pending i⟩
            (fun x hx => h x (List.mem_cons_of_mem _ hx))

theorem handle_trace (req : Request) (f : Bool) (w : Store) :
    (handleRequest req f w).2.2 = [SessionEvent.acquireEv, SessionEvent.releaseEv] := rfl

theorem countAcquire_append (l₁ l₂ : List SessionEvent) :
    countAcquire (l₁ ++ l₂) = countAcquire l₁ + countAcquire l₂ := by
  induction l₁ with
  | nil => simp [countAcquire]
  | cons x xs ih => cases x <;> simp [countAcquire, ih] <;> omega

theorem countRelease_append (l₁ l₂ : List SessionEvent) :
    countRelease (l₁ ++ l₂) = countRelease l₁ + countRelease l₂ := by
  induction l₁ with
  | nil => simp [countRelease]
  | cons x xs ih => cases x <;> simp [countRelease, ih] <;> omega

theorem runRequests_balanced (reqs : List (Request × Bool)) :
    ∀ w : Store, countAcquire (runRequests w reqs).2 = countRelease (runRequests w reqs).2 := by
  induction reqs with
  | nil => intro w; rfl
  | cons rf rest ih =>
      intro w
      rw [runRequests]
      rw [countAcquire_append, countRelease_append, handle_trace]
      rw [ih]
      rfl

/- ------------------------------------------------------------------ -/
/- Claim theorems -/
/- ------------------------------------------------------------------ -/

/-- C1: for every inbound request to any of the four routes, the DB session
acquired by get_db for that request is released exactly once on every exit
path, normal return, not-found short-circuit, or unexpected failure, and over
any sequence of requests the acquire-count equals the release-count. -/
theorem session_acquired_released_balanced (req : Request) (f : Bool) (w : Store)
    (reqs : List (Request × Bool)) :
    countAcquire (handleRequest req f w).2.2 = 1 ∧
    countRelease (handleRequest req f w).2.2 = 1 ∧
    countAcquire (runRequests w reqs).2 = countRelease (runRequests w reqs).2 := by
  refine ⟨?_, ?_, runRequests_balanced reqs w⟩
  · rw [handle_trace]; rfl
  · rw [handle_trace]; rfl

/-- C7: ReadByID is a pure read: for every id, present or absent, the GET
/users/{id} handler leaves the persisted store unchanged. -/
theorem read_user_pure (i : Nat) (w : Store) : (read_user i w).2 = w := by
  unfold read_user
  cases get_user_by_id w i <;> rfl

/-- C6 evidence: the startup-registration block of main.py is commented out,
so running the registered startup handlers in a fresh deployment leaves the
users table uncreated, although the on_startup body written in the file would
create it. -/
theorem startup_never_creates_tables :
    (runStartup ⟨false⟩).tablesCreated = false ∧
    (on_startup ⟨false⟩).tablesCreated = true :=
  ⟨rfl, rfl⟩

/-- C2: for every id with no corresponding record, each of the three
lookup-based handlers returns a 404 response whose body is the detail object
with the fixed message, the entity operations themselves signal absence as a
normal return value, and the handlers are the layer that translates absence
into the client-visible error code. -/
theorem absent_id_maps_to_404 (w : Store) (i : Nat) (n e : String) (a : Int)
    (h : get_user_by_id w i = none) :
    read_user i w = (⟨404, ResponseBody.detail userNotFound⟩, w) ∧
    update_user_route i n e a w = (⟨404, ResponseBody.detail userNotFound⟩, w) ∧
    delete_user_route i w = (⟨404, ResponseBody.detail userNotFound⟩, w) ∧
    (update_user w i n e a).1 = none ∧
    (delete_user w i).1 = none := by
  have hf : storeFind w i = none := h
  refine ⟨?_, ?_, ?_, ?_, ?_⟩ <;>
    simp [read_user, update_user_route, delete_user_route, get_user_by_id,
      update_user, delete_user, hf, h]

/-- C2 witness at a concrete absent id. -/
theorem absent_id_maps_to_404_witness :
    get_user_by_id emptyStore 1 = none ∧
    read_user 1 emptyStore = (⟨404, ResponseBody.detail userNotFound⟩, emptyStore) ∧
    update_user_route 1 ("x") ("y") 0 emptyStore =
      (⟨404, ResponseBody.detail userNotFound⟩, emptyStore) ∧
    delete_user_route 1 emptyStore =
      (⟨404, ResponseBody.detail userNotFound⟩, emptyStore) :=
  ⟨rfl, (absent_id_maps_to_404 emptyStore 1 ("x") ("y") 0 rfl).1,
    (absent_id_maps_to_404 emptyStore 1 ("x") ("y") 0 rfl).2.1,
    (absent_id_maps_to_404 emptyStore 1 ("x") ("y") 0 rfl).2.2.1⟩

/-- C3: for every valid input on a well-formed store, Create followed by
ReadByID with the identifier returned by Create yields a record whose fields
equal the input plus a non-null (at least 1, store-assigned) identifier. -/
theorem create_then_read_roundtrip (w : Store) (n e : String) (a : Int)
    (h : w.wf) :
    (create_user w n e a).1 = ⟨w.nextId, n, e, a⟩ ∧
    1 ≤ (create_user w n e a).1.id ∧
    get_user_by_id (create_user w n e a).2.1 (create_user w n e a).1.id =
      some ⟨w.nextId, n, e, a⟩ := by
  refine ⟨rfl, h.1, ?_⟩
  show (storeStageAdd w n e a).users.find? (fun x => x.id == w.nextId) =
    some ⟨w.nextId, n, e, a⟩
  unfold storeStageAdd
  rw [find_append_left_none]
  · rw [List.find?_cons_of_pos _ (by simp)]
  · intro x hx
    have hlt := h.2 x hx
    simp only [beq_eq_false_iff_ne]
    exact Nat.ne_of_lt hlt

/-- C3 witness at a concrete input on the empty store. -/
theorem create_then_read_roundtrip_witness :
    Store.wf emptyStore ∧
    (create_user emptyStore ("Ana") ("a@x.com") 30).1 = ⟨1, ("Ana"), ("a@x.com"), 30⟩ ∧
    get_user_by_id (create_user emptyStore ("Ana") ("a@x.com") 30).2.1
      (create_user emptyStore ("Ana") ("a@x.com") 30).1.id =
      some ⟨1, ("Ana"), ("a@x.com"), 30⟩ :=
  ⟨⟨Nat.le_refl 1, fun u hu => absurd hu (List.not_mem_nil u)⟩,
    (create_then_read_roundtrip emptyStore ("Ana") ("a@x.com") 30
      ⟨Nat.le_refl 1, fun u hu => absurd hu (List.not_mem_nil u)⟩).1,
    (create_then_read_roundtrip emptyStore ("Ana") ("a@x.com") 30
      ⟨Nat.le_refl 1, fun u hu => absurd hu (List.not_mem_nil u)⟩).2.2⟩

/-- C4: for every existing id, Update overwrites all three mutable fields
with the given values, so a subsequent ReadByID yields a record with exactly
those fields and the identifier unchanged, and applying the same Update a
second time yields the same result and the same stored state. -/
theorem update_full_replace_idempotent (w : Store) (i : Nat) (n e : String) (a : Int)
    (h : (get_user_by_id w i).isSome = true) :
    get_user_by_id (update_user w i n e a).2.1 i = some ⟨i, n, e, a⟩ ∧
    (update_user w i n e a).1 = some ⟨i, n, e, a⟩ ∧
    update_user (update_user w i n e a).2.1 i n e a = update_user w i n e a := by
  obtain ⟨u, hu⟩ := Option.isSome_iff_exists.mp h
  have hu0 : storeFind w i = some u := hu
  have hu1 : w.users.find? (fun x => x.id == i) = some u := hu
  have hui : u.id = i := by simpa using List.find?_some hu1
  have hres : update_user w i n e a =
      (some ⟨i, n, e, a⟩, storeStageSet w i n e a,
        [SOp.stageSet i n e a, SOp.commit]) := by
    simp [update_user, hu0, hui, runOps, stepOp, SessionLocal]
  have hfind2 : get_user_by_id (storeStageSet w i n e a) i = some ⟨i, n, e, a⟩ := by
    show (storeStageSet w i n e a).users.find? (fun x => x.id == i) =
      some ⟨i, n, e, a⟩
    simp only [storeStageSet]
    exact find_map_set i n e a w.users u hu1
  have hset2 : storeStageSet (storeStageSet w i n e a) i n e a =
      storeStageSet w i n e a := by
    simp only [storeStageSet, map_set_idem]
  refine ⟨?_, ?_, ?_⟩
  · rw [hres]
    exact hfind2
  · rw [hres]
  · rw [hres]
    simp [update_user, show storeFind (storeStageSet w i n e a) i = some ⟨i, n, e, a⟩
      from hfind2, runOps, stepOp, SessionLocal, hset2]

/-- C4 witness on a concrete one-row store. -/
theorem update_full_replace_idempotent_witness :
    (get_user_by_id storeBob 1).isSome = true ∧
    get_user_by_id (update_user storeBob 1 ("Bo") ("c@x.com") 21).2.1 1 =
      some ⟨1, ("Bo"), ("c@x.com"), 21⟩ ∧
    (update_user storeBob 1 ("Bo") ("c@x.com") 21).1 =
      some ⟨1, ("Bo"), ("c@x.com"), 21⟩ ∧
    update_user (update_user storeBob 1 ("Bo") ("c@x.com") 21).2.1 1
        ("Bo") ("c@x.com") 21 =
      update_user storeBob 1 ("Bo") ("c@x.com") 21 :=
  ⟨rfl, (update_full_replace_idempotent storeBob 1 ("Bo") ("c@x.com") 21 rfl).1,
    (update_full_replace_idempotent storeBob 1 ("Bo") ("c@x.com") 21 rfl).2.1,
    (update_full_replace_idempotent storeBob 1 ("Bo") ("c@x.com") 21 rfl).2.2⟩

/-- C5: for every existing id, Delete returns the record as it existed
immediately before deletion, and a subsequent ReadByID of the same id yields
the absence result: the deletion is observable immediately. -/
theorem delete_returns_record_then_absent (w : Store) (i : Nat) (u : User)
    (h : get_user_by_id w i = some u) :
    (delete_user w i).1 = some u ∧
    get_user_by_id (delete_user w i).2.1 i = none := by
  have h0 : storeFind w i = some u := h
  have hworld : (delete_user w i).2.1 = storeStageDelete w i := by
    simp [delete_user, h0, runOps, stepOp, SessionLocal]
  refine ⟨by simp [delete_user, h0], ?_⟩
  rw [hworld]
  show (storeStageDelete w i).users.find? (fun x => x.id == i) = none
  simp only [storeStageDelete]
  exact find_filter_ne i w.users

/-- C5 witness on a concrete one-row store. -/
theorem delete_returns_record_then_absent_witness :
    get_user_by_id storeBob 1 = some ⟨1, ("Bob"), ("b@x.com"), 20⟩ ∧
    (delete_user storeBob 1).1 = some ⟨1, ("Bob"), ("b@x.com"), 20⟩ ∧
    get_user_by_id (delete_user storeBob 1).2.1 1 = none :=
  ⟨rfl, (delete_returns_record_then_absent storeBob 1 ⟨1, ("Bob"), ("b@x.com"), 20⟩ rfl).1,
    (delete_returns_record_then_absent storeBob 1 ⟨1, ("Bob"), ("b@x.com"), 20⟩ rfl).2⟩

/-- C8: for every id with no corresponding record, Update and Delete follow
the absent branch: they return the absence result, perform no session
operation at all (in particular no commit), and leave the persisted store
unchanged. -/
theorem absent_update_delete_no_commit (w : Store) (i : Nat) (n e : String) (a : Int)
    (h : get_user_by_id w i = none) :
    update_user w i n e a = (none, w, []) ∧
    delete_user w i = (none, w, []) ∧
    SOp.commit ∉ (update_user w i n e a).2.2 ∧
    SOp.commit ∉ (delete_user w i).2.2 := by
  have hf : storeFind w i = none := h
  refine ⟨?_, ?_, ?_, ?_⟩ <;> simp [update_user, delete_user, hf]

/-- C8 witness at a concrete absent id. -/
theorem absent_update_delete_no_commit_witness :
    get_user_by_id emptyStore 7 = none ∧
    update_user emptyStore 7 ("n") ("e") 1 = (none, emptyStore, []) ∧
    delete_user emptyStore 7 = (none, emptyStore, []) :=
  ⟨rfl, (absent_update_delete_no_commit emptyStore 7 ("n") ("e") 1 rfl).1,
    (absent_update_delete_no_commit emptyStore 7 ("n") ("e") 1 rfl).2.1⟩

/-- C9 counterexample: at a concrete valid body, the POST /users handler
responds with status 200, the framework default, because the route decorator
in main.py configures no explicit status code; the claimed 201 is not what
the code produces. -/
theorem post_status_is_200_not_201 :
    (create_user_route ("Ana") ("a@x.com") 30 emptyStore).1.status = 200 ∧
    (create_user_route ("Ana") ("a@x.com") 30 emptyStore).1.status ≠ 201 :=
  ⟨rfl, by decide⟩

/-- C9 (amended): for every valid body, Create always succeeds and the POST
/users handler responds 200 (the framework default status: the route sets no
explicit status code) with the created record including the store-assigned
identifier; no uniqueness constraint on name or email is enforced, so a
second create with identical name and email also succeeds, with a fresh
identifier. -/
theorem create_always_succeeds_status_200 (w : Store) (n e : String) (a : Int) :
    (create_user_route n e a w).1.status = 200 ∧
    (create_user_route n e a w).1.body = ResponseBody.user ⟨w.nextId, n, e, a⟩ ∧
    (create_user_route n e a (create_user_route n e a w).2).1.status = 200 ∧
    (create_user_route n e a (create_user_route n e a w).2).1.body =
      ResponseBody.user ⟨w.nextId + 1, n, e, a⟩ ∧
    w.nextId + 1 ≠ w.nextId :=
  ⟨rfl, rfl, rfl, rfl, Nat.succ_ne_self w.nextId⟩

/-- C10: every unit-of-work produced by the SessionLocal factory is
non-autocommitting and non-autoflushing: a sequence of staged operations that
contains no explicit commit leaves the persisted store unchanged. -/
theorem session_factory_no_autocommit (w : Store) (ops : List SOp)
    (h : ∀ op ∈ ops, op ≠ SOp.commit) :
    (runOps (w, SessionLocal w) ops).1 = w :=
  runOps_fst_no_commit ops w (SessionLocal w) h

/-- C10 witness: a concrete staged insert plus staged delete with no commit
leaves the persisted store untouched. -/
theorem session_factory_no_autocommit_witness :
    (∀ op ∈ [SOp.stageAdd ("Ana") ("a@x.com") 30, SOp.stageDelete 1],
      op ≠ SOp.commit) ∧
    (runOps (emptyStore, SessionLocal emptyStore)
      [SOp.stageAdd ("Ana") ("a@x.com") 30, SOp.stageDelete 1]).1 = emptyStore :=
  ⟨by decide, session_factory_no_autocommit emptyStore
    [SOp.stageAdd ("Ana") ("a@x.com") 30, SOp.stageDelete 1] (by decide)⟩
